import Mathlib

/-!
Shallow embedding of `src/onelogin_aws_cli/credentials.py` and proofs of the
specification claims about it.  Python objects become Lean structures, methods
become pure functions from the old state (plus the values the method reads
from its external collaborators: stdin input, the OS keychain) to an outcome
record holding the new state, the observable side effects (prompts issued,
lines printed, keychain get/set calls) and an optional escaping exception.
-/

/-- Device supplied by the identity-provider client; only its `type` label is
used by this module (for prompt display). -/
structure Device where
  type : String
deriving DecidableEq, Repr

/-- The exception kinds that can escape the methods of this module.
`missingUsername`, `missingPassword`, `missingMfaDevice` and `missingMfaOtp`
model the four typed exception classes of the source; `runtimeError` models
the generic `RuntimeError`; `valueError` models the `ValueError` raised by
`int()` on unparsable input; `typeError` and `indexError` model the errors
Python raises when indexing a list with `None` or with an out-of-range
index. -/
inductive CredError where
  | missingUsername
  | missingPassword
  | missingMfaDevice
  | missingMfaOtp
  | runtimeError (msg : String)
  | valueError
  | typeError
  | indexError
deriving DecidableEq, Repr

/-- Python truthiness of an optional string: `None` and the empty string are
falsy, every other string is truthy. -/
def pyTruthyOptStr : Option String → Bool
  | none => false
  | some s => s != ""

/-- Characters stripped by Python `int()` around the literal. -/
def isPySpace (c : Char) : Bool :=
  c == ' ' || c == '\t' || c == '\n' || c == '\r'

/-- Decimal value of a nonempty all-digit character list. -/
def digitsToNat (cs : List Char) : Option Nat :=
  if cs ≠ [] ∧ cs.all Char.isDigit then
    some (cs.foldl (fun a c => a * 10 + (c.toNat - 48)) 0)
  else
    none

/-- Model of Python `int(s)` on a decimal string: surrounding whitespace is
stripped, an optional sign is accepted, and at least one ASCII digit must
follow; `none` models the `ValueError` Python raises otherwise. -/
def parsePyInt (s : String) : Option Int :=
  let cs := ((s.toList.dropWhile isPySpace).reverse.dropWhile isPySpace).reverse
  match cs with
  | '-' :: rest => (digitsToNat rest).map (fun n => -(n : Int))
  | '+' :: rest => (digitsToNat rest).map (fun n => (n : Int))
  | _ => (digitsToNat cs).map (fun n => (n : Int))

/-- Python list indexing `xs[i]` with an `int` index: nonnegative indexes
select from the front, negative indexes wrap from the back, anything else
raises `IndexError`. -/
def pyListGet (xs : List Device) (i : Int) : Except CredError Device :=
  if 0 ≤ i ∧ i < (xs.length : Int) then
    match xs.get? i.toNat with
    | some d => .ok d
    | none => .error .indexError
  else if -(xs.length : Int) ≤ i ∧ i < 0 then
    match xs.get? ((xs.length : Int) + i).toNat with
    | some d => .ok d
    | none => .error .indexError
  else
    .error .indexError

/-- State of an `MFACredentials` object.  The fields mirror the four instance
attributes assigned in `__init__`. -/
structure MFACredentials where
  interactive : Bool
  device_index : Option Int
  devices : List Device
  otpState : Option String
deriving DecidableEq, Repr

/-- State produced by `MFACredentials.__init__`: `_interactive = True`, then
`reset()` leaves empty devices, no selection, no OTP. -/
def MFACredentials.init : MFACredentials :=
  { interactive := true, device_index := none, devices := [], otpState := none }

/-- Property `has_device`: an index is held and it is `<` the device count
(Python `<` on `int`, so a negative held index also counts as a device). -/
def MFACredentials.has_device (m : MFACredentials) : Bool :=
  m.device_index.isSome &&
    (match m.device_index with
     | some i => decide (i < (m.devices.length : Int))
     | none => false)

/-- Property `has_otp`: an OTP value is pending. -/
def MFACredentials.has_otp (m : MFACredentials) : Bool :=
  m.otpState.isSome

/-- Property `device`: `self._devices[self._device_index]`; indexing with
`None` raises `TypeError`, out-of-range indexing raises `IndexError`. -/
def MFACredentials.device (m : MFACredentials) : Except CredError Device :=
  match m.device_index with
  | none => .error .typeError
  | some i => pyListGet m.devices i

/-- Property `otp`: returns the pending OTP and clears it (single use).
The pair is (returned value, state after the read). -/
def MFACredentials.otp (m : MFACredentials) : Option String × MFACredentials :=
  (m.otpState, { m with otpState := none })

/-- Method `ready`: an OTP is pending and a device is selected. -/
def MFACredentials.ready (m : MFACredentials) : Bool :=
  m.has_otp && m.has_device

/-- Method `reset`: clears devices, selection and OTP; the interactive flag
is untouched. -/
def MFACredentials.reset (m : MFACredentials) : MFACredentials :=
  { m with devices := [], device_index := none, otpState := none }

/-- Outcome of an `MFACredentials` method call: the state after the call
(including mutations made before an exception was raised), the prompts at
which `input()` blocked, the lines printed, and the escaping exception if
any. -/
structure MFAOutcome where
  state : MFACredentials
  prompts : List String
  printed : List String
  error : Option CredError
deriving DecidableEq, Repr

/-- Method `select_device(devices)`.  The list is assigned first.  With more
than one device: non-interactive raises `MissingMfaDeviceException`;
interactive prints the 1-based menu, blocks on `input("Which OTP Device? ")`
(modelled by the `input` argument) and stores `int(input) - 1`, where a
failing parse raises `ValueError` before the index is assigned.  Otherwise
the index is set to 0. -/
def MFACredentials.select_device (m : MFACredentials) (devices : List Device)
    (input : String) : MFAOutcome :=
  let m1 : MFACredentials := { m with devices := devices }
  if m1.devices.length > 1 then
    if !m1.interactive then
      { state := m1, prompts := [], printed := [], error := some .missingMfaDevice }
    else
      let menu := m1.devices.enum.map (fun p => toString (p.1 + 1) ++ ". " ++ p.2.type)
      match parsePyInt input with
      | none =>
        { state := m1, prompts := ["Which OTP Device? "], printed := menu,
          error := some .valueError }
      | some n =>
        { state := { m1 with device_index := some (n - 1) },
          prompts := ["Which OTP Device? "], printed := menu, error := none }
  else
    { state := { m1 with device_index := some 0 },
      prompts := [], printed := [], error := none }

/-- Method `prompt_token()`: non-interactive raises `MissingMfaOtpException`;
otherwise the prompt is labelled with the selected device type (evaluating
`self.device`, which can itself raise) and the entered value (the `input`
argument) becomes the pending OTP. -/
def MFACredentials.prompt_token (m : MFACredentials) (input : String) : MFAOutcome :=
  if !m.interactive then
    { state := m, prompts := [], printed := [], error := some .missingMfaOtp }
  else
    match m.device with
    | .error e => { state := m, prompts := [], printed := [], error := some e }
    | .ok d =>
      { state := { m with otpState := some input },
        prompts := [d.type ++ " Token: "], printed := [], error := none }

/-- Public calls on an `MFACredentials` instance that can change its state.
The read-only properties (`has_device`, `has_otp`, `ready`, `device`) do not
mutate and are omitted; the `otp` property does mutate and is included. -/
inductive MFACall where
  | selectDevice (devices : List Device) (input : String)
  | promptToken (input : String)
  | readOtp
  | resetCall
deriving DecidableEq, Repr

/-- State transition of one public call (the state after the call, whether or
not it raised). -/
def MFACredentials.step (m : MFACredentials) : MFACall → MFACredentials
  | .selectDevice ds input => (m.select_device ds input).state
  | .promptToken input => (m.prompt_token input).state
  | .readOtp => (m.otp).2
  | .resetCall => m.reset

/-- State reached from a freshly constructed instance by a sequence of public
calls. -/
def MFACredentials.run (calls : List MFACall) : MFACredentials :=
  calls.foldl MFACredentials.step MFACredentials.init

/-- Configuration `Section` as this module uses it (an external collaborator:
membership test and indexed read of the `username` key, modelled as an
optional value present iff the key is present, plus the `can_save_password`
property). -/
structure Section where
  username : Option String
  can_save_password : Bool
deriving DecidableEq, Repr

/-- State of a `UserCredentials` object, mirroring the attributes assigned in
`__init__`: the username (Python falsiness of `None` and `""` coincide, so an
unset username is modelled as `""`), the configuration section, the optional
password (starting at `None`) and the interactive flag (starting `True`). -/
structure UserCredentials where
  username : String
  configuration : Section
  password : Option String
  interactive : Bool
deriving DecidableEq, Repr

/-- Class attribute `SERVICE_NAME`. -/
def SERVICE_NAME : String := "onelogin-aws-cli"

/-- Constructor `UserCredentials(username, config)`. -/
def UserCredentials.mk0 (username : String) (config : Section) : UserCredentials :=
  { username := username, configuration := config, password := none, interactive := true }

/-- Property `has_password`: the password is not `None` and not empty. -/
def UserCredentials.has_password (u : UserCredentials) : Bool :=
  u.password.isSome && pyTruthyOptStr u.password

/-- Method `disable_interactive`. -/
def UserCredentials.disable_interactive (u : UserCredentials) : UserCredentials :=
  { u with interactive := false }

/-- Outcome of a `UserCredentials` method call: the state after the call, the
prompts at which the call blocked on stdin, the lines printed, the keychain
reads (service, account) and writes (service, account, secret) performed, and
the escaping exception if any. -/
structure UCOutcome where
  state : UserCredentials
  prompts : List String
  printed : List String
  keyringGets : List (String × String)
  keyringSets : List (String × String × String)
  error : Option CredError
deriving DecidableEq, Repr

/-- Method `load_username()`.  If the username is falsy: a configured
`username` key wins; otherwise non-interactive raises
`MissingUsernameException`; otherwise `input("Onelogin Username: ")`
(modelled by the `input` argument) is adopted. -/
def UserCredentials.load_username (u : UserCredentials) (input : String) : UCOutcome :=
  if u.username = "" then
    match u.configuration.username with
    | some cu =>
      { state := { u with username := cu }, prompts := [], printed := [],
        keyringGets := [], keyringSets := [], error := none }
    | none =>
      if !u.interactive then
        { state := u, prompts := [], printed := [], keyringGets := [],
          keyringSets := [], error := some .missingUsername }
      else
        { state := { u with username := input }, prompts := ["Onelogin Username: "],
          printed := [], keyringGets := [], keyringSets := [], error := none }
  else
    { state := u, prompts := [], printed := [], keyringGets := [],
      keyringSets := [], error := none }

/-- The message of the `RuntimeError` raised when every password source is
exhausted. -/
def EXHAUSTED_MSG : String :=
  "Could not load password from secure store nor from user input"

/-- Method `load_password()`.  The OS keychain is modelled by the oracle
`keychain` (what `keyring.get_password(service, account)` would return) and
the masked prompt by the `input` argument.  Mirrors the source: nothing
happens when a non-empty password is already held; with `can_save_password`
the keychain is read, a miss falls back to the prompt (non-interactive raises
`MissingPasswordException`) with the save flag set, a still-empty password
raises `RuntimeError`, and a freshly prompted value is written back to the
keychain; without `can_save_password` only the prompt is used. -/
def UserCredentials.load_password (u : UserCredentials)
    (keychain : String → String → Option String) (input : String) : UCOutcome :=
  if !u.has_password then
    if u.configuration.can_save_password then
      let u1 : UserCredentials := { u with password := keychain SERVICE_NAME u.username }
      let gets := [(SERVICE_NAME, u.username)]
      if !u1.has_password then
        if !u1.interactive then
          { state := u1, prompts := [], printed := [], keyringGets := gets,
            keyringSets := [], error := some .missingPassword }
        else
          let u2 : UserCredentials := { u1 with password := some input }
          if !u2.has_password then
            { state := u2, prompts := ["Onelogin Password: "], printed := [],
              keyringGets := gets, keyringSets := [],
              error := some (.runtimeError EXHAUSTED_MSG) }
          else
            { state := u2, prompts := ["Onelogin Password: "],
              printed := ["Saving password to keychain..."],
              keyringGets := gets,
              keyringSets := [(SERVICE_NAME, u2.username, input)], error := none }
      else
        { state := u1, prompts := [], printed := [], keyringGets := gets,
          keyringSets := [], error := none }
    else
      if !u.interactive then
        { state := u, prompts := [], printed := [], keyringGets := [],
          keyringSets := [], error := some .missingPassword }
      else
        { state := { u with password := some input }, prompts := ["Onelogin Password: "],
          printed := [], keyringGets := [], keyringSets := [], error := none }
  else
    { state := u, prompts := [], printed := [], keyringGets := [],
      keyringSets := [], error := none }

/-- No public call changes the interactive flag of an `MFACredentials`
instance (the class has no `disable_interactive` method). -/
theorem MFACredentials.step_interactive (m : MFACredentials) (c : MFACall) :
    (m.step c).interactive = m.interactive := by
  cases c with
  | selectDevice ds input =>
      simp only [MFACredentials.step, MFACredentials.select_device]
      split
      · split
        · rfl
        · split <;> rfl
      · rfl
  | promptToken input =>
      simp only [MFACredentials.step, MFACredentials.prompt_token]
      split
      · rfl
      · split <;> rfl
  | readOtp => rfl
  | resetCall => rfl

/-- Every state reachable from a freshly constructed `MFACredentials`
instance by public calls still has the interactive flag set. -/
theorem MFACredentials.run_interactive (cs : List MFACall) :
    (MFACredentials.run cs).interactive = true := by
  have h : ∀ (m : MFACredentials) (l : List MFACall),
      (l.foldl MFACredentials.step m).interactive = m.interactive := by
    intro m l
    induction l generalizing m with
    | nil => rfl
    | cons c l ih =>
        rw [List.foldl_cons, ih (m.step c), MFACredentials.step_interactive]
  exact h MFACredentials.init cs

/-- With the interactive flag set, `select_device` never raises
`MissingMfaDeviceException`. -/
theorem MFACredentials.select_device_no_missing (m : MFACredentials)
    (hm : m.interactive = true) (ds : List Device) (input : String) :
    (m.select_device ds input).error ≠ some CredError.missingMfaDevice := by
  simp only [MFACredentials.select_device]
  split
  · simp only [hm]
    split
    · simp_all
    · split <;> simp
  · simp

/-- Evaluating the `device` property can only raise `TypeError` (no index
held) or `IndexError` (index out of range). -/
theorem MFACredentials.device_error_kinds (m : MFACredentials) (e : CredError)
    (h : m.device = Except.error e) :
    e = CredError.typeError ∨ e = CredError.indexError := by
  unfold MFACredentials.device at h
  split at h
  · simp only [Except.error.injEq] at h
    exact Or.inl h.symm
  · unfold pyListGet at h
    split at h
    · split at h
      · exact absurd h (by simp)
      · simp only [Except.error.injEq] at h
        exact Or.inr h.symm
    · split at h
      · split at h
        · exact absurd h (by simp)
        · simp only [Except.error.injEq] at h
          exact Or.inr h.symm
      · simp only [Except.error.injEq] at h
        exact Or.inr h.symm

/-- With the interactive flag set, `prompt_token` never raises
`MissingMfaOtpException`. -/
theorem MFACredentials.prompt_token_no_missing (m : MFACredentials)
    (hm : m.interactive = true) (input : String) :
    (m.prompt_token input).error ≠ some CredError.missingMfaOtp := by
  simp only [MFACredentials.prompt_token, hm]
  split
  · simp_all
  · split
    · rename_i e heq
      rcases MFACredentials.device_error_kinds m e heq with h1 | h1 <;> simp [h1]
    · simp

/-- Claim C3: an `MFACredentials` instance is constructed with its
interactive flag set to true, no public method ever modifies that flag, and
therefore for every sequence of public calls on a freshly constructed
instance the `MissingMfaDeviceException` branch of `select_device` and the
`MissingMfaOtpException` branch of `prompt_token` are unreachable. -/
theorem claim_C3 (cs : List MFACall) (ds : List Device) (inp1 inp2 : String) :
    MFACredentials.init.interactive = true ∧
    (MFACredentials.run cs).interactive = true ∧
    ((MFACredentials.run cs).select_device ds inp1).error ≠
      some CredError.missingMfaDevice ∧
    ((MFACredentials.run cs).prompt_token inp2).error ≠
      some CredError.missingMfaOtp := by
  have hI := MFACredentials.run_interactive cs
  exact ⟨rfl, hI, MFACredentials.select_device_no_missing _ hI ds inp1,
    MFACredentials.prompt_token_no_missing _ hI inp2⟩

/-- Claim C1 fails as stated: a `load_username` call on an instance with an
unset username, no configured username and an empty interactive input
returns without raising, yet leaves the username empty. -/
theorem claim_C1_counterexample :
    ((UserCredentials.mk0 "" { username := none, can_save_password := false
      }).load_username "").error = none ∧
    ((UserCredentials.mk0 "" { username := none, can_save_password := false
      }).load_username "").state.username = "" :=
  ⟨rfl, rfl⟩

/-- Claim C1 (amended): if `load_username()` returns without raising, the
resulting username is non-empty provided the value the call can adopt is
non-empty — any configured username value is non-empty and the interactive
input is non-empty; an empty adopted value is stored as-is. -/
theorem claim_C1_amended (u : UserCredentials) (input : String)
    (hcfg : ∀ s, u.configuration.username = some s → s ≠ "")
    (hinp : input ≠ "")
    (herr : (u.load_username input).error = none) :
    (u.load_username input).state.username ≠ "" := by
  by_cases hu : u.username = ""
  · rcases hc : u.configuration.username with _ | cu
    · by_cases hi : u.interactive = true
      · simp [UserCredentials.load_username, hu, hc, hi, hinp]
      · rw [Bool.not_eq_true] at hi
        simp [UserCredentials.load_username, hu, hc, hi] at herr
    · have hne := hcfg cu hc
      simp [UserCredentials.load_username, hu, hc, hne]
  · simp [UserCredentials.load_username, hu]

/-- Claim C1 witness: the amended theorem at a concrete instance. -/
theorem claim_C1_witness :
    ((UserCredentials.mk0 "" { username := none, can_save_password := false
      }).load_username "alice").state.username ≠ "" :=
  claim_C1_amended _ "alice" (by simp [UserCredentials.mk0]) (by decide) rfl

/-- Claim C8: with an unset username, in non-interactive mode with no
configured `username` key, `load_username()` always raises
`MissingUsernameException`. -/
theorem claim_C8 (u : UserCredentials) (input : String)
    (hu : u.username = "") (hint : u.interactive = false)
    (hcfg : u.configuration.username = none) :
    (u.load_username input).error = some CredError.missingUsername := by
  simp [UserCredentials.load_username, hu, hcfg, hint]

/-- Claim C8 witness: the theorem at a concrete non-interactive instance. -/
theorem claim_C8_witness :
    (((UserCredentials.mk0 "" { username := none, can_save_password := true
      }).disable_interactive).load_username "x").error =
      some CredError.missingUsername :=
  claim_C8 _ "x" rfl rfl rfl

/-- The two conjuncts of `has_password` collapse to Python truthiness of the
optional password. -/
theorem UserCredentials.has_password_eq (u : UserCredentials) :
    u.has_password = pyTruthyOptStr u.password := by
  cases h : u.password <;> simp [UserCredentials.has_password, pyTruthyOptStr, h]

/-- Truthiness of a present string is its non-emptiness. -/
theorem pyTruthyOptStr_some (s : String) : pyTruthyOptStr (some s) = (s != "") :=
  rfl

/-- Claim C2 fails as stated: with password-saving disabled and an empty
interactively prompted value, `load_password` returns without any error even
though no password was obtained. -/
theorem claim_C2_counterexample :
    ((UserCredentials.mk0 "alice" { username := none, can_save_password := false
      }).load_password (fun _ _ => none) "").error = none ∧
    ((UserCredentials.mk0 "alice" { username := none, can_save_password := false
      }).load_password (fun _ _ => none) "").state.has_password = false :=
  ⟨rfl, rfl⟩

/-- Claim C2 (amended): the resolution-exhausted `RuntimeError` (a kind
distinct from `MissingUsername` and `MissingPassword`) is raised only on the
save-enabled path, when the keychain and the interactive prompt both yield no
non-empty value; with password-saving disabled an empty prompted value is
accepted and the call returns without error. -/
theorem claim_C2_amended (u : UserCredentials) (kc : String → String → Option String)
    (input : String)
    (hnp : u.has_password = false) (hint : u.interactive = true) :
    (u.configuration.can_save_password = true →
      pyTruthyOptStr (kc SERVICE_NAME u.username) = false → input = "" →
      (u.load_password kc input).error =
        some (CredError.runtimeError EXHAUSTED_MSG) ∧
      CredError.runtimeError EXHAUSTED_MSG ≠ CredError.missingUsername ∧
      CredError.runtimeError EXHAUSTED_MSG ≠ CredError.missingPassword) ∧
    (u.configuration.can_save_password = false →
      (u.load_password kc input).error = none) := by
  rw [UserCredentials.has_password_eq] at hnp
  constructor
  · intro hsave hkc hinp
    subst hinp
    refine ⟨?_, by simp, by simp⟩
    simp [UserCredentials.load_password, UserCredentials.has_password_eq,
      hnp, hsave, hint, hkc, pyTruthyOptStr_some]
  · intro hsave
    simp [UserCredentials.load_password, UserCredentials.has_password_eq,
      hnp, hsave, hint]

/-- Claim C2 witness: the amended theorem at concrete instances, both the
save-enabled exhausted path and the save-disabled empty-prompt path. -/
theorem claim_C2_witness :
    ((UserCredentials.mk0 "bob" { username := none, can_save_password := true
      }).load_password (fun _ _ => none) "").error =
      some (CredError.runtimeError EXHAUSTED_MSG) ∧
    ((UserCredentials.mk0 "bob" { username := none, can_save_password := false
      }).load_password (fun _ _ => none) "x").error = none := by
  constructor
  · exact ((claim_C2_amended
      (UserCredentials.mk0 "bob" { username := none, can_save_password := true })
      (fun _ _ => none) "" rfl rfl).1 rfl rfl rfl).1
  · exact (claim_C2_amended
      (UserCredentials.mk0 "bob" { username := none, can_save_password := false })
      (fun _ _ => none) "x" rfl rfl).2 rfl

/-- Claim C5: with saving enabled, no password held, a keychain miss and a
non-empty interactively prompted value, `load_password` performs exactly one
keychain `set` call, with service name `onelogin-aws-cli`, the instance
username and the freshly entered password, and succeeds. -/
theorem claim_C5 (u : UserCredentials) (kc : String → String → Option String)
    (input : String)
    (hnp : u.has_password = false)
    (hsave : u.configuration.can_save_password = true)
    (hint : u.interactive = true)
    (hkc : pyTruthyOptStr (kc SERVICE_NAME u.username) = false)
    (hinp : input ≠ "") :
    (u.load_password kc input).keyringSets = [(SERVICE_NAME, u.username, input)] ∧
    (u.load_password kc input).error = none ∧
    (u.load_password kc input).state.password = some input ∧
    SERVICE_NAME = "onelogin-aws-cli" := by
  rw [UserCredentials.has_password_eq] at hnp
  refine ⟨?_, ?_, ?_, rfl⟩ <;>
    simp [UserCredentials.load_password, UserCredentials.has_password_eq,
      hnp, hsave, hint, hkc, pyTruthyOptStr_some, hinp]

/-- Claim C5 witness: the theorem at a concrete instance. -/
theorem claim_C5_witness :
    ((UserCredentials.mk0 "carol" { username := none, can_save_password := true
      }).load_password (fun _ _ => none) "pw").keyringSets =
      [("onelogin-aws-cli", "carol", "pw")] :=
  (claim_C5 (UserCredentials.mk0 "carol"
    { username := none, can_save_password := true })
    (fun _ _ => none) "pw" rfl rfl rfl rfl (by decide)).1

/-- A `load_password` call on an instance already holding a non-empty
password is a complete no-op: unchanged state, no prompt, no print, no
keychain access, no error. -/
theorem UserCredentials.load_password_noop (u : UserCredentials)
    (kc : String → String → Option String) (input : String)
    (hp : u.has_password = true) :
    u.load_password kc input =
      { state := u, prompts := [], printed := [], keyringGets := [],
        keyringSets := [], error := none } := by
  simp [UserCredentials.load_password, hp]

/-- Claim C6 fails as stated: with password-saving disabled and an empty
prompted value, the first `load_password` call returns successfully, yet the
second call blocks on the password prompt again. -/
theorem claim_C6_counterexample :
    ((UserCredentials.mk0 "dave" { username := none, can_save_password := false
      }).load_password (fun _ _ => none) "").error = none ∧
    (((UserCredentials.mk0 "dave" { username := none, can_save_password := false
      }).load_password (fun _ _ => none) "").state.load_password
      (fun _ _ => none) "x").prompts = ["Onelogin Password: "] :=
  ⟨rfl, rfl⟩

/-- Claim C6 (amended): on an instance already holding a non-empty password,
`load_password` performs no keychain access and no prompt and leaves the
password unchanged; hence a second call after a first call that produced a
non-empty password does nothing further.  A first call that returned
successfully but left the password empty (save-disabled, empty prompt) is
not covered: there the second call prompts again. -/
theorem claim_C6_amended (u : UserCredentials)
    (kc kc2 : String → String → Option String) (input input2 : String) :
    (u.has_password = true →
      (u.load_password kc input).state = u ∧
      (u.load_password kc input).prompts = [] ∧
      (u.load_password kc input).keyringGets = [] ∧
      (u.load_password kc input).keyringSets = [] ∧
      (u.load_password kc input).error = none) ∧
    ((u.load_password kc input).state.has_password = true →
      ((u.load_password kc input).state.load_password kc2 input2).state =
        (u.load_password kc input).state ∧
      ((u.load_password kc input).state.load_password kc2 input2).prompts = [] ∧
      ((u.load_password kc input).state.load_password kc2 input2).keyringGets = [] ∧
      ((u.load_password kc input).state.load_password kc2 input2).keyringSets = [] ∧
      ((u.load_password kc input).state.load_password kc2 input2).error = none) := by
  constructor
  · intro hp
    rw [UserCredentials.load_password_noop u kc input hp]
    exact ⟨rfl, rfl, rfl, rfl, rfl⟩
  · intro hp
    rw [UserCredentials.load_password_noop _ kc2 input2 hp]
    exact ⟨rfl, rfl, rfl, rfl, rfl⟩

/-- Claim C6 witness: the amended theorem at concrete instances, both for an
instance already holding a password and for a second call after a keychain
hit. -/
theorem claim_C6_witness :
    (({ username := "eve", configuration :=
        { username := none, can_save_password := true },
        password := some "pw", interactive := true } : UserCredentials
      ).load_password (fun _ _ => none) "x").keyringGets = [] ∧
    (((UserCredentials.mk0 "eve" { username := none, can_save_password := true
      }).load_password (fun _ _ => some "pw") "x").state.load_password
      (fun _ _ => some "other") "y").prompts = [] := by
  constructor
  · exact ((claim_C6_amended
      { username := "eve", configuration :=
          { username := none, can_save_password := true },
        password := some "pw", interactive := true }
      (fun _ _ => none) (fun _ _ => none) "x" "x").1 rfl).2.2.1
  · exact ((claim_C6_amended
      (UserCredentials.mk0 "eve" { username := none, can_save_password := true })
      (fun _ _ => some "pw") (fun _ _ => some "other") "x" "y").2 rfl).2.1

/-- Claim C4 fails as stated: a `select_device` call that fails with
`MissingMfaDeviceException` replaces the device list but does not reset the
previous selection — the previously selected index 0 persists and is even
in range for the newly assigned list. -/
theorem claim_C4_counterexample :
    ((⟨false, some 0, [⟨"sms"⟩], none⟩ : MFACredentials).select_device
      [⟨"sms"⟩, ⟨"app"⟩] "1").error = some CredError.missingMfaDevice ∧
    ((⟨false, some 0, [⟨"sms"⟩], none⟩ : MFACredentials).select_device
      [⟨"sms"⟩, ⟨"app"⟩] "1").state.device_index = some 0 ∧
    ((⟨false, some 0, [⟨"sms"⟩], none⟩ : MFACredentials).select_device
      [⟨"sms"⟩, ⟨"app"⟩] "1").state.devices = [⟨"sms"⟩, ⟨"app"⟩] ∧
    ((⟨false, some 0, [⟨"sms"⟩], none⟩ : MFACredentials).select_device
      [⟨"sms"⟩, ⟨"app"⟩] "1").state.has_device = true :=
  ⟨rfl, rfl, rfl, by decide⟩

/-- Claim C4 (amended): every `select_device` call replaces the stored device
list with the argument; a call that returns without raising assigns a fresh
selection (index 0 for lists of at most one device, the parsed 1-based input
minus one otherwise); a call that raises (`MissingMfaDeviceException` or a
parse `ValueError`) leaves the previously selected index unchanged. -/
theorem claim_C4_amended (m : MFACredentials) (ds : List Device) (input : String) :
    (m.select_device ds input).state.devices = ds ∧
    ((m.select_device ds input).error = none →
      (ds.length ≤ 1 → (m.select_device ds input).state.device_index = some 0) ∧
      (ds.length > 1 → ∃ n, parsePyInt input = some n ∧
        (m.select_device ds input).state.device_index = some (n - 1))) ∧
    ((m.select_device ds input).error ≠ none →
      (m.select_device ds input).state.device_index = m.device_index) := by
  by_cases hlen : ds.length > 1
  · by_cases hi : m.interactive = true
    · rcases hp : parsePyInt input with _ | n
      · simp [MFACredentials.select_device, hlen, hi, hp]
      · simp only [MFACredentials.select_device, hlen, hi, hp, if_true, if_pos]
        refine ⟨rfl, fun _ => ⟨fun hc => absurd hc (by omega), fun _ => ⟨n, rfl, rfl⟩⟩,
          fun hc => absurd rfl hc⟩
    · rw [Bool.not_eq_true] at hi
      simp [MFACredentials.select_device, hlen, hi]
  · simp [MFACredentials.select_device, hlen]

/-- Claim C4 witness: the amended theorem at a concrete successful call. -/
theorem claim_C4_witness :
    ((⟨true, some 5, [], none⟩ : MFACredentials).select_device
      [⟨"sms"⟩] "ignored").state.devices = [⟨"sms"⟩] ∧
    ((⟨true, some 5, [], none⟩ : MFACredentials).select_device
      [⟨"sms"⟩] "ignored").state.device_index = some 0 := by
  have h := claim_C4_amended (⟨true, some 5, [], none⟩ : MFACredentials)
    [⟨"sms"⟩] "ignored"
  exact ⟨h.1, (h.2.1 rfl).1 (by decide)⟩

/-- Claim C7: reading the `otp` property of an instance with a pending OTP
returns that value and clears it, so `has_otp` is false immediately
afterwards and a second read yields the absent value. -/
theorem claim_C7 (m : MFACredentials) (s : String) (h : m.otpState = some s) :
    m.otp.1 = some s ∧ m.otp.2.has_otp = false ∧ m.otp.2.otp.1 = none := by
  simp [MFACredentials.otp, MFACredentials.has_otp, h]

/-- Claim C7 witness: the theorem at a concrete instance. -/
theorem claim_C7_witness :
    (⟨true, none, [], some "123456"⟩ : MFACredentials).otp.1 = some "123456" ∧
    (⟨true, none, [], some "123456"⟩ : MFACredentials).otp.2.has_otp = false ∧
    (⟨true, none, [], some "123456"⟩ : MFACredentials).otp.2.otp.1 = none :=
  claim_C7 _ "123456" rfl

/-- Claim C9: on a device list with at most one element, `select_device`
neither prompts nor prints nor raises, in interactive and non-interactive
mode alike; it sets the index to 0, so `has_device` becomes true exactly
when the list has one element and stays false on an empty list. -/
theorem claim_C9 (m : MFACredentials) (ds : List Device) (input : String)
    (h : ds.length ≤ 1) :
    (m.select_device ds input).error = none ∧
    (m.select_device ds input).prompts = [] ∧
    (m.select_device ds input).printed = [] ∧
    (m.select_device ds input).state.device_index = some 0 ∧
    (m.select_device ds input).state.has_device = decide (ds.length = 1) := by
  have hlen : ¬ ds.length > 1 := by omega
  refine ⟨?_, ?_, ?_, ?_, ?_⟩ <;>
    simp [MFACredentials.select_device, MFACredentials.has_device, hlen]
  have h01 : ds.length = 0 ∨ ds.length = 1 := by omega
  rcases h01 with h0 | h0 <;> simp [h0]

/-- Claim C9 witness: the theorem at concrete one-element and empty lists,
in interactive and non-interactive mode. -/
theorem claim_C9_witness :
    (MFACredentials.init.select_device [⟨"sms"⟩] "junk").error = none ∧
    (MFACredentials.init.select_device [⟨"sms"⟩] "junk").prompts = [] ∧
    ((⟨false, none, [], none⟩ : MFACredentials).select_device [] "junk").state.has_device =
      decide (([] : List Device).length = 1) ∧
    ((⟨false, none, [], none⟩ : MFACredentials).select_device [] "junk").error = none := by
  have h1 := claim_C9 MFACredentials.init [⟨"sms"⟩] "junk" (by decide)
  have h2 := claim_C9 (⟨false, none, [], none⟩ : MFACredentials) [] "junk" (by decide)
  exact ⟨h1.1, h1.2.1, h2.2.2.2.2, h2.1⟩

/-- Claim C10: on a device list with two or more elements, `select_device`
in non-interactive mode always raises `MissingMfaDeviceException`; in
interactive mode a numeric input parsing to `n` selects the 0-based index
`n - 1` (so input 2 selects index 1). -/
theorem claim_C10 (m : MFACredentials) (ds : List Device) (input : String)
    (h2 : 2 ≤ ds.length) :
    (m.interactive = false →
      (m.select_device ds input).error = some CredError.missingMfaDevice) ∧
    (m.interactive = true → ∀ n, parsePyInt input = some n →
      (m.select_device ds input).error = none ∧
      (m.select_device ds input).state.device_index = some (n - 1)) := by
  have hlen : ds.length > 1 := by omega
  constructor
  · intro hi
    simp [MFACredentials.select_device, hlen, hi]
  · intro hi n hp
    simp [MFACredentials.select_device, hlen, hi, hp]

/-- Claim C10 witness: the theorem at concrete two-element lists; input 2
selects index 1 in interactive mode, and the non-interactive call raises. -/
theorem claim_C10_witness :
    ((⟨false, none, [], none⟩ : MFACredentials).select_device
      [⟨"sms"⟩, ⟨"app"⟩] "2").error = some CredError.missingMfaDevice ∧
    (MFACredentials.init.select_device [⟨"sms"⟩, ⟨"app"⟩] "2").error = none ∧
    (MFACredentials.init.select_device [⟨"sms"⟩, ⟨"app"⟩] "2").state.device_index =
      some 1 := by
  have h1 := (claim_C10 (⟨false, none, [], none⟩ : MFACredentials)
    [⟨"sms"⟩, ⟨"app"⟩] "2" (by decide)).1 rfl
  have h2 := (claim_C10 MFACredentials.init [⟨"sms"⟩, ⟨"app"⟩] "2"
    (by decide)).2 rfl 2 (by decide)
  exact ⟨h1, h2.1, h2.2⟩
